import Mathlib

/-!
Verification of the Azure Data Lake Storage Gen2 (azdls) backend adapter
(`src/core/src/services/azdls/backend.rs`) against its specification.

The backend is shallowly embedded: configuration, builder and the status-code
interpretation of every claimed operation are translated directly from the
source.  Request construction, signing and transport (which live in the
out-of-tree `core.rs` / `raw` modules) are absorbed into a "remote oracle"
`Request → Except Error Response`; every operation additionally returns the
list of requests it handed to that oracle, so "issues no request" is a
statement about that trace.
-/

/-- HTTP status codes used by the backend, as numbers. -/
def StatusCode.OK : Nat := 200

/-- 201 Created. -/
def StatusCode.CREATED : Nat := 201

/-- 404 Not Found. -/
def StatusCode.NOT_FOUND : Nat := 404

/-- 409 Conflict. -/
def StatusCode.CONFLICT : Nat := 409

/-- Decidable equality for `Except`, by cases on the two constructors. -/
instance instDecEqExcept {ε α : Type} [DecidableEq ε] [DecidableEq α] :
    DecidableEq (Except ε α) := fun x y =>
  match x, y with
  | .error a, .error b =>
    if h : a = b then .isTrue (by rw [h]) else .isFalse (by intro he; cases he; exact h rfl)
  | .error _, .ok _ => .isFalse (by intro he; cases he)
  | .ok _, .error _ => .isFalse (by intro he; cases he)
  | .ok a, .ok b =>
    if h : a = b then .isTrue (by rw [h]) else .isFalse (by intro he; cases he; exact h rfl)

/-- Remove every trailing `/` (Rust `str::trim_end_matches('/')`). -/
def trimEndSlashes (s : String) : String :=
  String.mk ((s.data.reverse.dropWhile (fun c => c = '/')).reverse)

/-- Rust `str::is_empty`: the string has no characters (computed on the
character list so that the kernel can evaluate it). -/
def strIsEmpty (s : String) : Bool := s.data.isEmpty

/-- ASCII lowercase of one character (what Rust `to_lowercase` does on the
ASCII-only endpoint suffixes this code compares). -/
def charLower (c : Char) : Char :=
  if 'A' ≤ c ∧ c ≤ 'Z' then Char.ofNat (c.toNat + 32) else c

/-- Lowercase every character (list-based for kernel evaluation). -/
def strLower (s : String) : String := String.mk (s.data.map charLower)

/-- A header value: either a valid string, or raw bytes on which Rust's
`HeaderValue::to_str` would fail. -/
inductive HeaderValue where
  | str (s : String)
  | bytes
  deriving DecidableEq, Repr

/-- An HTTP response as the backend inspects it: status, headers, body. -/
structure Response where
  status : Nat
  headers : List (String × HeaderValue)
  body : String
  deriving DecidableEq, Repr

/-- Case-insensitive header lookup (Rust `HeaderMap::get`). -/
def Response.headerGet (resp : Response) (name : String) : Option HeaderValue :=
  (resp.headers.find? (fun p => strLower p.1 == strLower name)).map (·.2)

/-- Error kinds relevant to the claims (`ErrorKind` in the crate; the spec
calls the generic remote-failure kind RemoteOperationFailed). -/
inductive ErrorKind where
  | ConfigInvalid
  | Unexpected
  | RemoteOperationFailed
  deriving DecidableEq, Repr

/-- A typed error: kind, message, and the remote status when one exists. -/
structure Error where
  kind : ErrorKind
  message : String
  status : Option Nat := none
  deriving DecidableEq, Repr

/-- Modelled from the spec: the error interpreter
(`src/core/src/services/azdls/error.rs`, not included in the sources) maps a
failed response into a typed error — "RemoteOperationFailed (any HTTP status
outside the declared success set for that operation, carrying status code and
response body for diagnosis)". -/
def parse_error (resp : Response) : Error :=
  { kind := .RemoteOperationFailed
    message := resp.body
    status := some resp.status }

/-- `AzdlsConfig` (backend.rs lines 50-80). -/
structure AzdlsConfig where
  root : Option String := none
  filesystem : String := ""
  endpoint : Option String := none
  account_name : Option String := none
  account_key : Option String := none
  client_secret : Option String := none
  tenant_id : Option String := none
  client_id : Option String := none
  authority_host : Option String := none
  deriving DecidableEq, Repr

/-- Rendering of an `Option<String>` field by Rust's `debug_struct`
(quotes/escaping of the inner string elided). -/
def debugOptStr : Option String → String
  | none => "None"
  | some s => "Some(" ++ s ++ ")"

/-- `impl Debug for AzdlsConfig` (backend.rs lines 82-111), rendered as the
ordered list of (field name, shown value) pairs that `debug_struct` emits:
root, filesystem and endpoint always appear with their values; account_name,
account_key and client_secret appear as "<redacted>" when present; tenant_id
and client_id appear with their values when present; authority_host never
appears. -/
def AzdlsConfig.debugFields (c : AzdlsConfig) : List (String × String) :=
  [("root", debugOptStr c.root),
   ("filesystem", c.filesystem),
   ("endpoint", debugOptStr c.endpoint)]
  ++ (if c.account_name.isSome then [("account_name", "<redacted>")] else [])
  ++ (if c.account_key.isSome then [("account_key", "<redacted>")] else [])
  ++ (if c.client_secret.isSome then [("client_secret", "<redacted>")] else [])
  ++ (if c.tenant_id.isSome then [("tenant_id", debugOptStr c.tenant_id)] else [])
  ++ (if c.client_id.isSome then [("client_id", debugOptStr c.client_id)] else [])

/-- The transport handle (`HttpClient`), opaque to this layer. -/
structure HttpClient where
  deriving DecidableEq, Repr

/-- `AzdlsBuilder` (backend.rs lines 124-128). -/
structure AzdlsBuilder where
  config : AzdlsConfig := {}
  http_client : Option HttpClient := none
  deriving DecidableEq, Repr

/-- `AzdlsBuilder::root` (lines 144-150): only a non-empty override applies. -/
def AzdlsBuilder.root (b : AzdlsBuilder) (root : String) : AzdlsBuilder :=
  if strIsEmpty root then b else { b with config := { b.config with root := some root } }

/-- `AzdlsBuilder::filesystem` (lines 153-157): assigns unconditionally. -/
def AzdlsBuilder.filesystem (b : AzdlsBuilder) (filesystem : String) : AzdlsBuilder :=
  { b with config := { b.config with filesystem := filesystem } }

/-- `AzdlsBuilder::endpoint` (lines 165-172): non-empty override, trailing
slashes trimmed. -/
def AzdlsBuilder.endpoint (b : AzdlsBuilder) (endpoint : String) : AzdlsBuilder :=
  if strIsEmpty endpoint then b
  else { b with config := { b.config with endpoint := some (trimEndSlashes endpoint) } }

/-- `AzdlsBuilder::account_name` (lines 178-184). -/
def AzdlsBuilder.account_name (b : AzdlsBuilder) (account_name : String) : AzdlsBuilder :=
  if strIsEmpty account_name then b
  else { b with config := { b.config with account_name := some account_name } }

/-- `AzdlsBuilder::account_key` (lines 190-196). -/
def AzdlsBuilder.account_key (b : AzdlsBuilder) (account_key : String) : AzdlsBuilder :=
  if strIsEmpty account_key then b
  else { b with config := { b.config with account_key := some account_key } }

/-- `AzdlsBuilder::client_secret` (lines 203-209). -/
def AzdlsBuilder.client_secret (b : AzdlsBuilder) (client_secret : String) : AzdlsBuilder :=
  if strIsEmpty client_secret then b
  else { b with config := { b.config with client_secret := some client_secret } }

/-- `AzdlsBuilder::tenant_id` (lines 216-222). -/
def AzdlsBuilder.tenant_id (b : AzdlsBuilder) (tenant_id : String) : AzdlsBuilder :=
  if strIsEmpty tenant_id then b
  else { b with config := { b.config with tenant_id := some tenant_id } }

/-- `AzdlsBuilder::client_id` (lines 229-235). -/
def AzdlsBuilder.client_id (b : AzdlsBuilder) (client_id : String) : AzdlsBuilder :=
  if strIsEmpty client_id then b
  else { b with config := { b.config with client_id := some client_id } }

/-- `AzdlsBuilder::authority_host` (lines 242-248). -/
def AzdlsBuilder.authority_host (b : AzdlsBuilder) (authority_host : String) : AzdlsBuilder :=
  if strIsEmpty authority_host then b
  else { b with config := { b.config with authority_host := some authority_host } }

/-- `KNOWN_AZDLS_ENDPOINT_SUFFIX` (backend.rs lines 43-47). -/
def KNOWN_AZDLS_ENDPOINT_SUFFIX : List String :=
  ["dfs.core.windows.net",
   "dfs.core.usgovcloudapi.net",
   "dfs.core.chinacloudapi.cn"]

/-- Rust `strip_prefix(pre).or_else(...)` chain of
`infer_storage_name_from_endpoint` (lines 496-499): drop `http://`, else
`https://`, else leave the endpoint unchanged. -/
def stripScheme (endpoint : String) : String :=
  if List.isPrefixOf "http://".data endpoint.data then String.mk (endpoint.data.drop 7)
  else if List.isPrefixOf "https://".data endpoint.data then String.mk (endpoint.data.drop 8)
  else endpoint

/-- Rust `splitn(2, '.')` on a character list: the part before the first dot
and, when a dot exists, the remainder after it. -/
def splitnDot : List Char → String × Option String
  | [] => ("", none)
  | c :: cs =>
    if c = '.' then ("", some (String.mk cs))
    else
      let (hd, tl) := splitnDot cs
      (String.mk (c :: hd.data), tl)

/-- `infer_storage_name_from_endpoint` (backend.rs lines 495-517): strip the
scheme, split on the first dot, lowercase and slash-trim the suffix, and
return the leading label exactly when the suffix is a known azdls endpoint
suffix. -/
def infer_storage_name_from_endpoint (endpoint : String) : Option String :=
  let stripped := stripScheme endpoint
  let parts := splitnDot stripped.data
  let storage_name := parts.1
  let endpoint_suffix := strLower (trimEndSlashes (parts.2.getD ""))
  if KNOWN_AZDLS_ENDPOINT_SUFFIX.any (fun s => s = endpoint_suffix) then
    some storage_name
  else
    none




/-- The remote requests an operation can issue; request construction, signing
and sending (`AzdlsCore` in core.rs, not included in the sources) are
abstracted to the operation kind and the caller-supplied paths. -/
inductive Request where
  | createDir (path : String)
  | getProperties (path : String)
  | deleteReq (path : String)
  | renameReq (src dst : String)
  deriving DecidableEq, Repr

/-- The remote side: signing plus transport plus server, producing either a
transport-level error or a response for each request. -/
abbrev Remote := Request → Except Error Response

/-- `EntryMode` of a metadata record. -/
inductive EntryMode where
  | FILE
  | DIR
  deriving DecidableEq, Repr

/-- A metadata record: kind plus the standard headers the generic parser
keeps (size, modified time, etag), carried verbatim. -/
structure Metadata where
  mode : EntryMode
  contentLength : Option HeaderValue := none
  lastModified : Option HeaderValue := none
  etag : Option HeaderValue := none
  deriving DecidableEq, Repr

/-- `Metadata::new(mode)`. -/
def Metadata.new (mode : EntryMode) : Metadata := { mode := mode }

/-- `Metadata::with_mode`. -/
def Metadata.with_mode (m : Metadata) (mode : EntryMode) : Metadata :=
  { m with mode := mode }

/-- Modelled from the spec: `parse_into_metadata` (crate `raw` module, not
included in the sources) — "standard size/modified-time/etag headers parsed by
a generic header-to-metadata routine"; the entry kind starts from the path
shape and is refined by the caller from the resource-type header. -/
def parse_into_metadata (path : String) (resp : Response) : Metadata :=
  { mode := if path.data.getLast? = some '/' then .DIR else .FILE
    contentLength := resp.headerGet "content-length"
    lastModified := resp.headerGet "last-modified"
    etag := resp.headerGet "etag" }

/-- `RpStat`: the reply of stat, carrying the metadata record. -/
structure RpStat where
  meta : Metadata
  deriving DecidableEq, Repr

/-- `RpDelete`. -/
structure RpDelete where
  deriving DecidableEq, Repr

/-- `RpRename`. -/
structure RpRename where
  deriving DecidableEq, Repr

/-- `RpWrite`. -/
structure RpWrite where
  deriving DecidableEq, Repr

/-- `OpWrite` restricted to what the azdls writer choice inspects. -/
structure OpWrite where
  append : Bool := false
  deriving DecidableEq, Repr

/-- `AzdlsWriter::new(core, args, path)` (writer.rs, state only). -/
structure AzdlsWriter where
  args : OpWrite
  path : String
  deriving DecidableEq, Repr

/-- `AzdlsWriters`: `One` wraps the writer in `oio::OneShotWriter`, `Two` in
`oio::AppendWriter` (the generic wrappers are represented by the tag). -/
inductive AzdlsWriters where
  | One (w : AzdlsWriter)
  | Two (w : AzdlsWriter)
  deriving DecidableEq, Repr

/-- `Access::stat` for `AzdlsBackend` (backend.rs lines 388-432): the root path
is answered as a directory with no request; otherwise get-properties is sent,
only status OK is a success, and the `x-ms-resource-type` header selects file
versus directory, any other shape being an Unexpected error. -/
def AzdlsBackend.stat (remote : Remote) (path : String) :
    Except Error RpStat × List Request :=
  if path = "/" then (.ok { meta := Metadata.new .DIR }, [])
  else
    match remote (.getProperties path) with
    | .error e => (.error e, [.getProperties path])
    | .ok resp =>
      if resp.status ≠ StatusCode.OK then
        (.error (parse_error resp), [.getProperties path])
      else
        let meta := parse_into_metadata path resp
        match resp.headerGet "x-ms-resource-type" with
        | none =>
          (.error { kind := .Unexpected
                    message := "azdls should return x-ms-resource-type header, but it's missing" },
           [.getProperties path])
        | some .bytes =>
          (.error { kind := .Unexpected
                    message := "azdls should return x-ms-resource-type header, but it's not a valid string" },
           [.getProperties path])
        | some (.str resource) =>
          if resource = "file" then
            (.ok { meta := meta.with_mode .FILE }, [.getProperties path])
          else if resource = "directory" then
            (.ok { meta := meta.with_mode .DIR }, [.getProperties path])
          else
            (.error { kind := .Unexpected
                      message := "azdls returns not supported x-ms-resource-type" },
             [.getProperties path])

/-- `Access::write` for `AzdlsBackend` (backend.rs lines 448-456): builds the
writer from core, args and path, chooses the append variant when
`args.append()` holds and the one-shot variant otherwise, and replies at once;
no request reaches the remote side. -/
def AzdlsBackend.write (_remote : Remote) (path : String) (args : OpWrite) :
    Except Error (RpWrite × AzdlsWriters) × List Request :=
  let w : AzdlsWriter := { args := args, path := path }
  let ws := if args.append then AzdlsWriters.Two w else AzdlsWriters.One w
  (.ok ({}, ws), [])

/-- `Access::delete` for `AzdlsBackend` (backend.rs lines 458-467): sends the
delete request; OK and NOT_FOUND succeed, every other status goes to the error
interpreter. -/
def AzdlsBackend.delete (remote : Remote) (path : String) :
    Except Error RpDelete × List Request :=
  match remote (.deleteReq path) with
  | .error e => (.error e, [.deleteReq path])
  | .ok resp =>
    if resp.status = StatusCode.OK ∨ resp.status = StatusCode.NOT_FOUND then
      (.ok {}, [.deleteReq path])
    else
      (.error (parse_error resp), [.deleteReq path])

/-- Modelled from the spec: `get_parent` (crate `raw` module, not included in
the sources) — the parent of a path: everything up to and including the last
`/` of the slash-trimmed path, the root when there is none. -/
def get_parent (path : String) : String :=
  if path = "/" then "/"
  else
    let p := (trimEndSlashes path).data
    if p.any (fun c => c = '/') then
      String.mk (p.reverse.dropWhile (fun c => c ≠ '/')).reverse
    else "/"

/-- Modelled from the spec: `AzdlsCore::azdls_ensure_parent_path` (core.rs, not
included in the sources) — "builds and sends a create-directory request for
path's parent"; when the parent is the root there is nothing to create and no
request is issued, and the response is handed back to the caller when a
request was sent. -/
def azdls_ensure_parent_path (remote : Remote) (path : String) :
    Except Error (Option Response) × List Request :=
  let parent := get_parent (trimEndSlashes path)
  if parent = "/" then (.ok none, [])
  else
    match remote (.createDir parent) with
    | .error e => (.error e, [.createDir parent])
    | .ok resp => (.ok (some resp), [.createDir parent])

/-- `Access::rename` for `AzdlsBackend` (backend.rs lines 475-492): phase one
ensures the destination's parent, accepting CREATED or CONFLICT and aborting
on anything else; phase two sends the rename request, succeeding only on
CREATED. -/
def AzdlsBackend.rename (remote : Remote) (src dst : String) :
    Except Error RpRename × List Request :=
  match azdls_ensure_parent_path remote dst with
  | (.error e, tr) => (.error e, tr)
  | (.ok optResp, tr) =>
    let gate : Except Error Unit :=
      match optResp with
      | none => .ok ()
      | some resp =>
        if resp.status = StatusCode.CREATED ∨ resp.status = StatusCode.CONFLICT then .ok ()
        else .error (parse_error resp)
    match gate with
    | .error e => (.error e, tr)
    | .ok _ =>
      match remote (.renameReq src dst) with
      | .error e => (.error e, tr ++ [.renameReq src dst])
      | .ok resp =>
        if resp.status = StatusCode.CREATED then (.ok {}, tr ++ [.renameReq src dst])
        else (.error (parse_error resp), tr ++ [.renameReq src dst])

/-- Split a character list on `/`. -/
def splitSlash : List Char → List (List Char)
  | [] => [[]]
  | c :: cs =>
    let r := splitSlash cs
    if c = '/' then [] :: r
    else
      match r with
      | [] => [[c]]
      | hd :: tl => (c :: hd) :: tl

/-- Modelled from the spec: `normalize_root` (crate `raw` module, not included
in the sources) — "collapse slashes, leading slash". -/
def normalize_root (root : String) : String :=
  let segs := (splitSlash root.data).filter (fun s => ¬ s.isEmpty)
  "/" ++ String.intercalate "/" (segs.map String.mk)

/-- `AzdlsCore` state retained after build (backend.rs lines 317-326); client,
credential loader and signer are opaque collaborators.  `account_name` records
what build passed to the credential loader. -/
structure AzdlsCore where
  filesystem : String
  root : String
  endpoint : String
  account_name : Option String
  deriving DecidableEq, Repr

/-- `AzdlsBackend` (backend.rs lines 331-334). -/
structure AzdlsBackend where
  core : AzdlsCore
  deriving DecidableEq, Repr

/-- `Builder::build` for `AzdlsBuilder` (backend.rs lines 266-327).
`HttpClient::new()` is an external collaborator; its outcome is supplied as
`newClient` and consulted only when no client was preset.  The second
component is the list of remote requests issued during build — none, on every
path. -/
def AzdlsBuilder.build (b : AzdlsBuilder) (newClient : Except Error HttpClient) :
    Except Error AzdlsBackend × List Request :=
  let root := normalize_root (b.config.root.getD "")
  let filesystemCheck : Except Error String :=
    if strIsEmpty b.config.filesystem then
      .error { kind := .ConfigInvalid, message := "filesystem is empty" }
    else .ok b.config.filesystem
  match filesystemCheck with
  | .error e => (.error e, [])
  | .ok _filesystem =>
    let endpointCheck : Except Error String :=
      match b.config.endpoint with
      | some endpoint => .ok (trimEndSlashes endpoint)
      | none => .error { kind := .ConfigInvalid, message := "endpoint is empty" }
    match endpointCheck with
    | .error e => (.error e, [])
    | .ok endpoint =>
      let clientCheck : Except Error HttpClient :=
        match b.http_client with
        | some c => .ok c
        | none => newClient
      match clientCheck with
      | .error e => (.error e, [])
      | .ok _client =>
        (.ok { core :=
                { filesystem := b.config.filesystem
                  root := root
                  endpoint := endpoint
                  account_name :=
                    (b.config.account_name).orElse
                      (fun _ => infer_storage_name_from_endpoint endpoint) } },
         [])


/-- C4: account-name inference strips the scheme, splits on the first dot, and
returns the leading label as the account name exactly when the remaining
suffix, lowercased and with trailing slashes trimmed, is one of the known
regional endpoint suffixes; otherwise it is unresolved.  In particular
`https://account.dfs.core.windows.net` (with or without a trailing slash)
yields `account`, and `https://example.com` yields none. -/
theorem infer_storage_name_characterization (endpoint : String) :
    (∀ a, infer_storage_name_from_endpoint endpoint = some a ↔
       (a = (splitnDot (stripScheme endpoint).data).1
        ∧ strLower (trimEndSlashes (((splitnDot (stripScheme endpoint).data).2).getD ""))
            ∈ KNOWN_AZDLS_ENDPOINT_SUFFIX))
    ∧ infer_storage_name_from_endpoint "https://account.dfs.core.windows.net" = some "account"
    ∧ infer_storage_name_from_endpoint "https://account.dfs.core.windows.net/" = some "account"
    ∧ infer_storage_name_from_endpoint "https://example.com" = none := by
  refine ⟨?_, by decide, by decide, by decide⟩
  intro a
  unfold infer_storage_name_from_endpoint
  by_cases hm : KNOWN_AZDLS_ENDPOINT_SUFFIX.any
      (fun s => s = strLower (trimEndSlashes (((splitnDot (stripScheme endpoint).data).2).getD ""))) = true
  · have hmem : strLower (trimEndSlashes (((splitnDot (stripScheme endpoint).data).2).getD ""))
        ∈ KNOWN_AZDLS_ENDPOINT_SUFFIX := by
      rcases List.any_eq_true.mp hm with ⟨x, hx, hxe⟩
      simpa [of_decide_eq_true hxe] using hx
    simp only [hm, if_true]
    constructor
    · intro hsome
      exact ⟨(Option.some.injEq _ _).mp hsome.symm, hmem⟩
    · intro ⟨ha, _⟩
      simp [ha]
  · have hnmem : strLower (trimEndSlashes (((splitnDot (stripScheme endpoint).data).2).getD ""))
        ∉ KNOWN_AZDLS_ENDPOINT_SUFFIX := by
      intro hmem
      exact hm (List.any_eq_true.mpr ⟨_, hmem, by simp⟩)
    simp only [Bool.not_eq_true] at hm
    simp [hm]
    intro ha
    exact fun h => hnmem h

/-- C5: stat on the literal root path returns a synthetic directory metadata
record and issues no remote request, for every remote behavior. -/
theorem stat_root_synthetic_dir (remote : Remote) :
    AzdlsBackend.stat remote "/" = (.ok { meta := Metadata.new .DIR }, []) := by
  simp [AzdlsBackend.stat]

/-- C6: delete succeeds exactly when the remote response status is OK or
NOT_FOUND (the latter completing as an idempotent delete), and every other
status yields the interpreter's typed error. -/
theorem delete_ok_or_not_found (remote : Remote) (path : String) (resp : Response)
    (h : remote (.deleteReq path) = .ok resp) :
    ((AzdlsBackend.delete remote path).1 = .ok {} ↔
        resp.status = StatusCode.OK ∨ resp.status = StatusCode.NOT_FOUND)
    ∧ (¬(resp.status = StatusCode.OK ∨ resp.status = StatusCode.NOT_FOUND) →
        (AzdlsBackend.delete remote path).1 = .error (parse_error resp)) := by
  unfold AzdlsBackend.delete
  rw [h]
  by_cases hc : resp.status = StatusCode.OK ∨ resp.status = StatusCode.NOT_FOUND
  · simp [hc]
  · simp [hc]

/-- C6 witness: a NOT_FOUND response completes a delete successfully. -/
theorem delete_ok_or_not_found_witness :
    (AzdlsBackend.delete
        (fun _ => .ok { status := 404, headers := [], body := "" }) "path/a").1
      = .ok {} := by
  have h := delete_ok_or_not_found
    (fun _ => .ok { status := 404, headers := [], body := "" }) "path/a"
    { status := 404, headers := [], body := "" } rfl
  exact h.1.mpr (Or.inr (by decide))

/-- C7: write replies synchronously — an ok result and an empty request trace
for every path, arguments and remote behavior — returning the append-capable
variant when append is requested and the one-shot variant otherwise. -/
theorem write_synchronous_variant_choice (remote : Remote) (path : String) (args : OpWrite) :
    AzdlsBackend.write remote path args
      = (.ok ({}, if args.append then AzdlsWriters.Two { args := args, path := path }
                  else AzdlsWriters.One { args := args, path := path }), []) := rfl

/-- C9 counterexample: the claim "every setter applies only non-empty
overrides" fails on `filesystem`: starting from a builder whose filesystem is
`fs`, calling the filesystem setter with the empty string changes the field. -/
theorem filesystem_setter_empty_overwrites :
    (AzdlsBuilder.filesystem { config := { filesystem := "fs" } } "").config.filesystem
      ≠ ({ config := { filesystem := "fs" } } : AzdlsBuilder).config.filesystem := by
  decide

/-- C9 (amended): every setter except `filesystem` applies only non-empty
overrides — called with the empty string it leaves the configuration
unchanged — while the `filesystem` setter assigns its argument
unconditionally, so an empty string overwrites the field. -/
theorem setters_empty_string_behavior (b : AzdlsBuilder) :
    (b.root "").config = b.config
    ∧ (b.endpoint "").config = b.config
    ∧ (b.account_name "").config = b.config
    ∧ (b.account_key "").config = b.config
    ∧ (b.client_secret "").config = b.config
    ∧ (b.tenant_id "").config = b.config
    ∧ (b.client_id "").config = b.config
    ∧ (b.authority_host "").config = b.config
    ∧ (∀ s : String, (b.filesystem s).config.filesystem = s) := by
  have he : strIsEmpty "" = true := by decide
  refine ⟨?_, ?_, ?_, ?_, ?_, ?_, ?_, ?_, ?_⟩ <;>
    simp [AzdlsBuilder.root, AzdlsBuilder.endpoint, AzdlsBuilder.account_name,
      AzdlsBuilder.account_key, AzdlsBuilder.client_secret, AzdlsBuilder.tenant_id,
      AzdlsBuilder.client_id, AzdlsBuilder.authority_host, AzdlsBuilder.filesystem, he]

/-- C3: whenever the filesystem name is empty or the endpoint is absent, build
fails with a ConfigInvalid error whose message names the missing field
(filesystem being checked first), and issues no remote request. -/
theorem build_missing_config_fails (b : AzdlsBuilder) (newClient : Except Error HttpClient)
    (h : strIsEmpty b.config.filesystem = true ∨ b.config.endpoint = none) :
    (AzdlsBuilder.build b newClient).2 = []
    ∧ ∃ e : Error, (AzdlsBuilder.build b newClient).1 = .error e
        ∧ e.kind = .ConfigInvalid
        ∧ e.message = (if strIsEmpty b.config.filesystem then "filesystem is empty"
                       else "endpoint is empty") := by
  by_cases hf : strIsEmpty b.config.filesystem = true
  · refine ⟨?_, { kind := .ConfigInvalid, message := "filesystem is empty" }, ?_, rfl, ?_⟩
    · simp [AzdlsBuilder.build, hf]
    · simp [AzdlsBuilder.build, hf]
    · simp [hf]
  · have he : b.config.endpoint = none := h.resolve_left hf
    simp only [Bool.not_eq_true] at hf
    refine ⟨?_, { kind := .ConfigInvalid, message := "endpoint is empty" }, ?_, rfl, ?_⟩
    · simp [AzdlsBuilder.build, hf, he]
    · simp [AzdlsBuilder.build, hf, he]
    · simp [hf]

/-- C3 witness: an empty filesystem name makes build fail with ConfigInvalid
before anything is sent. -/
theorem build_missing_config_fails_witness :
    (AzdlsBuilder.build { config := { filesystem := "", endpoint := some "e" } } (.ok {})).1
      = .error { kind := .ConfigInvalid, message := "filesystem is empty" }
    ∧ (AzdlsBuilder.build { config := { filesystem := "", endpoint := some "e" } } (.ok {})).2
      = [] := by
  have h := build_missing_config_fails
    { config := { filesystem := "", endpoint := some "e" } } (.ok {}) (Or.inl (by decide))
  exact ⟨by decide, h.1⟩

/-- C10: the Debug rendering hides the secrets — two configurations that agree
outside account_name, account_key and client_secret, each secret being present
in both, render identically; and each of those fields is only ever rendered as
`<redacted>`. -/
theorem debug_redacts_secrets (c₁ c₂ : AzdlsConfig)
    (hroot : c₁.root = c₂.root) (hfs : c₁.filesystem = c₂.filesystem)
    (hep : c₁.endpoint = c₂.endpoint)
    (htid : c₁.tenant_id = c₂.tenant_id) (hcid : c₁.client_id = c₂.client_id)
    (han1 : c₁.account_name.isSome = true) (han2 : c₂.account_name.isSome = true)
    (hak1 : c₁.account_key.isSome = true) (hak2 : c₂.account_key.isSome = true)
    (hcs1 : c₁.client_secret.isSome = true) (hcs2 : c₂.client_secret.isSome = true) :
    c₁.debugFields = c₂.debugFields
    ∧ (∀ v, ("account_name", v) ∈ c₁.debugFields → v = "<redacted>")
    ∧ (∀ v, ("account_key", v) ∈ c₁.debugFields → v = "<redacted>")
    ∧ (∀ v, ("client_secret", v) ∈ c₁.debugFields → v = "<redacted>") := by
  refine ⟨?_, ?_, ?_, ?_⟩
  · simp [AzdlsConfig.debugFields, hroot, hfs, hep, htid, hcid,
      han1, han2, hak1, hak2, hcs1, hcs2]
  all_goals
    intro v hv
    by_cases ht : c₁.tenant_id.isSome = true <;>
      by_cases hc : c₁.client_id.isSome = true <;>
      simp [AzdlsConfig.debugFields, han1, hak1, hcs1, ht, hc] at hv <;>
      tauto

/-- C10 witness: two configurations differing only in the three secret values
have the same Debug rendering, with the secrets shown redacted. -/
theorem debug_redacts_secrets_witness :
    AzdlsConfig.debugFields
        { filesystem := "fs", account_name := some "alice", account_key := some "k1",
          client_secret := some "s1" }
      = AzdlsConfig.debugFields
        { filesystem := "fs", account_name := some "bob", account_key := some "k2",
          client_secret := some "s2" }
    ∧ (∀ v, ("account_key", v) ∈ AzdlsConfig.debugFields
          { filesystem := "fs", account_name := some "alice", account_key := some "k1",
            client_secret := some "s1" } → v = "<redacted>") := by
  have h := debug_redacts_secrets
    { filesystem := "fs", account_name := some "alice", account_key := some "k1",
      client_secret := some "s1" }
    { filesystem := "fs", account_name := some "bob", account_key := some "k2",
      client_secret := some "s2" }
    rfl rfl rfl rfl rfl rfl rfl rfl rfl rfl rfl
  exact ⟨h.1, h.2.2.1⟩

/-- C1: rename is two-phase — when the parent-ensuring step issued a request
and its response status is CREATED or CONFLICT, rename proceeds to issue the
rename request; on any other parent-step status it returns that step's typed
error and the rename request is never sent. -/
theorem rename_parent_conflict_tolerated (remote : Remote) (src dst : String) (resp : Response)
    (hsent : (azdls_ensure_parent_path remote dst).1 = .ok (some resp)) :
    ((resp.status = StatusCode.CREATED ∨ resp.status = StatusCode.CONFLICT) →
        Request.renameReq src dst ∈ (AzdlsBackend.rename remote src dst).2)
    ∧ (¬(resp.status = StatusCode.CREATED ∨ resp.status = StatusCode.CONFLICT) →
        ((AzdlsBackend.rename remote src dst).1 = .error (parse_error resp)
         ∧ Request.renameReq src dst ∉ (AzdlsBackend.rename remote src dst).2)) := by
  unfold AzdlsBackend.rename
  unfold azdls_ensure_parent_path at hsent ⊢
  by_cases hp : get_parent (trimEndSlashes dst) = "/"
  · simp [hp] at hsent
  · cases hrem : remote (.createDir (get_parent (trimEndSlashes dst))) with
    | error e => simp [hp, hrem] at hsent
    | ok r =>
      simp only [hp, if_false, hrem, if_neg hp] at hsent ⊢
      have hr : r = resp := by simpa using hsent
      subst hr
      by_cases hs : r.status = StatusCode.CREATED ∨ r.status = StatusCode.CONFLICT
      · cases hren : remote (.renameReq src dst) with
        | error e => simp [hs, hren]
        | ok r2 =>
          by_cases hs2 : r2.status = StatusCode.CREATED <;> simp [hs, hren, hs2]
      · simp [hs]

/-- C2: once the parent phase passed, the rename request's status decides the
outcome — success exactly on CREATED, and any other status surfaces the error
interpreter's RemoteOperationFailed error. -/
theorem rename_succeeds_only_on_created (remote : Remote) (src dst : String) (resp : Response)
    (hpar : (azdls_ensure_parent_path remote dst).1 = .ok none
            ∨ ∃ r, (azdls_ensure_parent_path remote dst).1 = .ok (some r)
                 ∧ (r.status = StatusCode.CREATED ∨ r.status = StatusCode.CONFLICT))
    (hren : remote (.renameReq src dst) = .ok resp) :
    ((AzdlsBackend.rename remote src dst).1 = .ok {} ↔ resp.status = StatusCode.CREATED)
    ∧ (resp.status ≠ StatusCode.CREATED →
        ((AzdlsBackend.rename remote src dst).1 = .error (parse_error resp)
         ∧ (parse_error resp).kind = .RemoteOperationFailed)) := by
  unfold AzdlsBackend.rename
  unfold azdls_ensure_parent_path at hpar ⊢
  by_cases hp : get_parent (trimEndSlashes dst) = "/"
  · simp only [hp, if_true, if_pos hp] at hpar ⊢
    rw [hren]
    by_cases hs : resp.status = StatusCode.CREATED <;> simp [hs, parse_error]
  · cases hrem : remote (.createDir (get_parent (trimEndSlashes dst))) with
    | error e => simp [hp, hrem] at hpar
    | ok r =>
      simp only [hp, if_false, if_neg hp, hrem] at hpar ⊢
      have hgate : r.status = StatusCode.CREATED ∨ r.status = StatusCode.CONFLICT := by
        rcases hpar with h1 | ⟨r2, hr2, hst⟩
        · exact absurd h1 (by simp)
        · have heq : r = r2 := by simpa using hr2
          exact heq ▸ hst
      rw [hren]
      by_cases hs : resp.status = StatusCode.CREATED <;> simp [hgate, hs, parse_error]

/-- C8: for a non-root path, stat fails through the error interpreter on any
status other than OK; on OK the resource-type header classifies the entry —
`file` yields a file record, `directory` a directory record, and a missing,
non-string or unrecognized value yields an Unexpected error. -/
theorem stat_nonroot_resource_type (remote : Remote) (path : String) (resp : Response)
    (hne : path ≠ "/") (h : remote (.getProperties path) = .ok resp) :
    (resp.status ≠ StatusCode.OK →
        (AzdlsBackend.stat remote path).1 = .error (parse_error resp))
    ∧ (resp.status = StatusCode.OK →
        ((resp.headerGet "x-ms-resource-type" = some (.str "file") →
            (AzdlsBackend.stat remote path).1
              = .ok { meta := (parse_into_metadata path resp).with_mode .FILE })
         ∧ (resp.headerGet "x-ms-resource-type" = some (.str "directory") →
            (AzdlsBackend.stat remote path).1
              = .ok { meta := (parse_into_metadata path resp).with_mode .DIR })
         ∧ (resp.headerGet "x-ms-resource-type" = none →
            ∃ e : Error, (AzdlsBackend.stat remote path).1 = .error e ∧ e.kind = .Unexpected)
         ∧ (resp.headerGet "x-ms-resource-type" = some .bytes →
            ∃ e : Error, (AzdlsBackend.stat remote path).1 = .error e ∧ e.kind = .Unexpected)
         ∧ (∀ v, resp.headerGet "x-ms-resource-type" = some (.str v) →
              v ≠ "file" → v ≠ "directory" →
            ∃ e : Error, (AzdlsBackend.stat remote path).1 = .error e ∧ e.kind = .Unexpected))) := by
  unfold AzdlsBackend.stat
  rw [if_neg hne, h]
  constructor
  · intro hs
    simp [hs]
  · intro hs
    have hsOK : ¬ resp.status ≠ StatusCode.OK := by simpa using hs
    refine ⟨?_, ?_, ?_, ?_, ?_⟩
    · intro hh; simp [hsOK, hh]
    · intro hh; simp [hsOK, hh]
    · intro hh; simp [hsOK, hh]
    · intro hh; simp [hsOK, hh]
    · intro v hh hvf hvd; simp [hsOK, hh, hvf, hvd]

/-- C1 witness: with a parent-creation step answered CONFLICT, rename still
issues the rename request. -/
theorem rename_parent_conflict_tolerated_witness :
    Request.renameReq "x/a" "y/b" ∈
      (AzdlsBackend.rename
        (fun r => match r with
          | .createDir _ => .ok { status := 409, headers := [], body := "" }
          | _ => .ok { status := 201, headers := [], body := "" })
        "x/a" "y/b").2 := by
  have h := rename_parent_conflict_tolerated
    (fun r => match r with
      | .createDir _ => .ok { status := 409, headers := [], body := "" }
      | _ => .ok { status := 201, headers := [], body := "" })
    "x/a" "y/b" { status := 409, headers := [], body := "" } (by decide)
  exact h.1 (Or.inr rfl)

/-- C2 witness: a rename request answered 500 after a successful parent phase
surfaces the interpreter's RemoteOperationFailed error. -/
theorem rename_succeeds_only_on_created_witness :
    (AzdlsBackend.rename
        (fun r => match r with
          | .createDir _ => .ok { status := 201, headers := [], body := "" }
          | _ => .ok { status := 500, headers := [], body := "boom" })
        "x/a" "y/b").1
      = .error (parse_error { status := 500, headers := [], body := "boom" })
    ∧ (parse_error { status := 500, headers := [], body := "boom" }).kind
      = .RemoteOperationFailed := by
  have h := rename_succeeds_only_on_created
    (fun r => match r with
      | .createDir _ => .ok { status := 201, headers := [], body := "" }
      | _ => .ok { status := 500, headers := [], body := "boom" })
    "x/a" "y/b" { status := 500, headers := [], body := "boom" }
    (Or.inr ⟨{ status := 201, headers := [], body := "" }, by decide, Or.inl rfl⟩) rfl
  exact h.2 (by decide)

/-- C8 witness: a 200 get-properties response whose resource-type header says
`directory` makes stat return a directory record. -/
theorem stat_nonroot_resource_type_witness :
    (AzdlsBackend.stat
        (fun _ => .ok { status := 200,
                        headers := [("x-ms-resource-type", .str "directory")], body := "" })
        "a").1
      = .ok { meta := (parse_into_metadata "a"
          { status := 200, headers := [("x-ms-resource-type", .str "directory")],
            body := "" }).with_mode .DIR } := by
  have h := stat_nonroot_resource_type
    (fun _ => .ok { status := 200,
                    headers := [("x-ms-resource-type", .str "directory")], body := "" })
    "a" { status := 200, headers := [("x-ms-resource-type", .str "directory")], body := "" }
    (by decide) rfl
  exact (h.2 rfl).2.1 (by decide)
